import Mathlib

/-!
Shallow embedding of the LCD_I2C_STM32 driver (src/LCD.c, src/LCD.h).

Bytes are modelled as `Nat` (all values stay below 256: every packet is
built from a masked nibble OR'd with control bits below 16, and every
command byte in the source is a constant below 256 or a masked/clamped
value).  A bus-write transaction (`HAL_I2C_Master_Transmit` of one byte)
is recorded as one element of a `List Nat`; the device address argument
carries no information used by any claim and is kept in the state only.
Each driver operation becomes a pure function from the driver state (the
two static variables of LCD.c) and its arguments to a status, the list of
transmitted packet bytes, and (for the state-mutating operations) the new
state.  `HAL_Delay` calls are timing only and leave no trace in this model.
-/

namespace LCDI2C

/-- Status enumeration from src/LCD.h (LCD_StatusTypeDef). -/
inductive LCD_StatusTypeDef where
  | LCD_OK
  | LCD_ERROR
  | LCD_NOT_INITIALIZED
  | LCD_BUSY
  | LCD_TIMEOUT
  deriving DecidableEq, Repr

export LCD_StatusTypeDef (LCD_OK LCD_ERROR LCD_NOT_INITIALIZED LCD_BUSY LCD_TIMEOUT)

/-- LCD command constants from src/LCD.h. -/
def LCD_CLEAR_DISPLAY : Nat := 0x01

def LCD_RETURN_HOME : Nat := 0x02

def LCD_ENTRY_MODE_SET : Nat := 0x04

def LCD_DISPLAY_CONTROL : Nat := 0x08

def LCD_CURSOR_SHIFT : Nat := 0x10

def LCD_FUNCTION_SET : Nat := 0x20

def LCD_SET_CGRAM_ADDR : Nat := 0x40

def LCD_SET_DDRAM_ADDR : Nat := 0x80

def LCD_ENTRY_LEFT : Nat := 0x02

def LCD_DISPLAY_ON : Nat := 0x04

def LCD_CURSOR_ON : Nat := 0x02

def LCD_BLINK_ON : Nat := 0x01

def LCD_DISPLAY_MOVE : Nat := 0x08

def LCD_MOVE_RIGHT : Nat := 0x04

def LCD_MOVE_LEFT : Nat := 0x00

def LCD_4BIT_MODE : Nat := 0x00

def LCD_2LINE : Nat := 0x08

def LCD_5x8DOTS : Nat := 0x00

/-- Control pins on the PCF8574 expander (src/LCD.h). -/
def LCD_RS : Nat := 0x01

def LCD_EN : Nat := 0x04

def LCD_BACKLIGHT : Nat := 0x08

/-- The driver's process-wide state: the two static variables of LCD.c.
`hi2c_lcd` is the transport handle (`none` models the NULL pointer, a
`some` value models a bound I2C handle identified by a tag) and
`lcd_addr` is the mutable device address byte. -/
structure LCDState where
  hi2c_lcd : Option Nat
  lcd_addr : Nat
  deriving DecidableEq, Repr

/-- The state at program start: `hi2c_lcd = NULL`, `lcd_addr = 0x27 << 1`. -/
def initialState : LCDState := { hi2c_lcd := none, lcd_addr := 0x27 <<< 1 }

/-- LCD_WriteNibble (src/LCD.c lines 343-363): builds the packet byte from
the data nibble, the RS bit when `rs` is nonzero, the backlight bit and the
enable bit, transmits it, then clears the enable bit (`packet &= ~LCD_EN`,
which on a uint8 is `packet & 0xFB`) and transmits again.  Two bus-write
transactions per call. -/
def LCD_WriteNibble (data rs : Nat) : List Nat :=
  let packet := data
  let packet := if rs ≠ 0 then packet ||| LCD_RS else packet
  let packet := packet ||| LCD_BACKLIGHT
  let packet := packet ||| LCD_EN
  [packet, packet &&& 0xFB]

/-- LCD_WriteByte (src/LCD.c lines 370-376): sends the high nibble then the
low nibble (`data & 0xF0`, then `(data << 4) & 0xF0`). -/
def LCD_WriteByte (data rs : Nat) : List Nat :=
  LCD_WriteNibble (data &&& 0xF0) rs ++ LCD_WriteNibble ((data <<< 4) &&& 0xF0) rs

/-- LCD_WriteCommand (src/LCD.c): a byte write with RS = 0. -/
def LCD_WriteCommand (cmd : Nat) : List Nat :=
  LCD_WriteByte cmd 0

/-- LCD_WriteData (src/LCD.c): a byte write with RS = 1. -/
def LCD_WriteData (data : Nat) : List Nat :=
  LCD_WriteByte data 1

/-- LCD_Init (src/LCD.c lines 34-76): rejects a NULL handle with LCD_ERROR
and no writes; otherwise binds the handle, runs the 4-bit bring-up nibble
sequence and the five full configuration commands, and returns LCD_OK. -/
def LCD_Init (s : LCDState) (hi2c : Option Nat) :
    LCD_StatusTypeDef × List Nat × LCDState :=
  match hi2c with
  | none => (LCD_ERROR, [], s)
  | some h =>
    let s' : LCDState := { s with hi2c_lcd := some h }
    let tx :=
      LCD_WriteNibble (0x03 <<< 4) 0 ++
      LCD_WriteNibble (0x03 <<< 4) 0 ++
      LCD_WriteNibble (0x03 <<< 4) 0 ++
      LCD_WriteNibble (0x02 <<< 4) 0 ++
      LCD_WriteCommand (LCD_FUNCTION_SET ||| LCD_4BIT_MODE ||| LCD_2LINE ||| LCD_5x8DOTS) ++
      LCD_WriteCommand LCD_DISPLAY_CONTROL ++
      LCD_WriteCommand LCD_CLEAR_DISPLAY ++
      LCD_WriteCommand (LCD_ENTRY_MODE_SET ||| LCD_ENTRY_LEFT) ++
      LCD_WriteCommand (LCD_DISPLAY_CONTROL ||| LCD_DISPLAY_ON)
    (LCD_OK, tx, s')

/-- LCD_Clear (src/LCD.c lines 82-91). -/
def LCD_Clear (s : LCDState) : LCD_StatusTypeDef × List Nat :=
  if s.hi2c_lcd = none then (LCD_NOT_INITIALIZED, [])
  else (LCD_OK, LCD_WriteCommand LCD_CLEAR_DISPLAY)

/-- Row-offset array of LCD_SetCursor (`{0x00, 0x40, 0x14, 0x54}`),
indexed as the C array access `row_offsets[row]` with `row < 4`. -/
def row_offsets (row : Nat) : Nat :=
  [0x00, 0x40, 0x14, 0x54].getD row 0

/-- LCD_SetCursor (src/LCD.c lines 99-113): clamps `row` to 3 when
`row >= 4` and `col` to 19 when `col >= 20`, then sends the set-DDRAM
address command. -/
def LCD_SetCursor (s : LCDState) (row col : Nat) : LCD_StatusTypeDef × List Nat :=
  if s.hi2c_lcd = none then (LCD_NOT_INITIALIZED, [])
  else
    let row := if row ≥ 4 then 3 else row
    let col := if col ≥ 20 then 19 else col
    (LCD_OK, LCD_WriteCommand (LCD_SET_DDRAM_ADDR ||| (col + row_offsets row)))

/-- LCD_PrintString (src/LCD.c lines 120-135).  The `const char*` argument
is modelled as `Option (List Nat)`: `none` is the NULL pointer and a list
holds the string's bytes up to (excluding) the 0 terminator, matching the
`while (*str)` loop. -/
def LCD_PrintString (s : LCDState) (str : Option (List Nat)) :
    LCD_StatusTypeDef × List Nat :=
  if s.hi2c_lcd = none then (LCD_NOT_INITIALIZED, [])
  else
    match str with
    | none => (LCD_ERROR, [])
    | some cs => (LCD_OK, cs.flatMap (fun c => LCD_WriteData c))

/-- Decimal digit emission of itoa for a positive magnitude: most
significant digit first, ASCII `'0' + d`.  The fuel argument starts at the
number itself, which bounds the digit count. -/
def natToDecAux : Nat → Nat → List Nat
  | 0, _ => []
  | fuel + 1, n => if n = 0 then [] else natToDecAux fuel (n / 10) ++ [48 + n % 10]

/-- Decimal text of a natural number, with "0" for zero. -/
def natToDec (n : Nat) : List Nat :=
  if n = 0 then [48] else natToDecAux (n + 1) n

/-- itoa(num, buffer, 10) as used by LCD_PrintInt: signed decimal text with
a leading '-' (ASCII 45) for negative values. -/
def itoa (num : Int) : List Nat :=
  if num < 0 then 45 :: natToDec num.natAbs else natToDec num.toNat

/-- LCD_PrintInt (src/LCD.c lines 142-151): converts with itoa and forwards
the buffer to LCD_PrintString. -/
def LCD_PrintInt (s : LCDState) (num : Int) : LCD_StatusTypeDef × List Nat :=
  if s.hi2c_lcd = none then (LCD_NOT_INITIALIZED, [])
  else LCD_PrintString s (some (itoa num))

/-- LCD_PrintFloat (src/LCD.c lines 159-174): clamps `decimals` to 6 and
forwards the sprintf-formatted buffer to LCD_PrintString.  The IEEE-754
`%.*f` formatting itself is not shallow-embeddable, so the formatted text
is abstracted as the parameter `fmt`, a function from the clamped decimals
count to the buffer's bytes (sprintf never yields a NULL buffer). -/
def LCD_PrintFloat (s : LCDState) (fmt : Nat → List Nat) (decimals : Nat) :
    LCD_StatusTypeDef × List Nat :=
  if s.hi2c_lcd = none then (LCD_NOT_INITIALIZED, [])
  else
    let decimals := if decimals > 6 then 6 else decimals
    LCD_PrintString s (some (fmt decimals))

/-- LCD_CreateChar (src/LCD.c lines 182-199): rejects `location > 7` with
LCD_ERROR, otherwise sends the set-CGRAM-address command and the 8 bytes
`charmap[0] .. charmap[7]` as data writes.  The `uint8_t charmap[]`
pointer is modelled as a function from the index to the byte read. -/
def LCD_CreateChar (s : LCDState) (location : Nat) (charmap : Nat → Nat) :
    LCD_StatusTypeDef × List Nat :=
  if s.hi2c_lcd = none then (LCD_NOT_INITIALIZED, [])
  else if location > 7 then (LCD_ERROR, [])
  else
    (LCD_OK, LCD_WriteCommand (LCD_SET_CGRAM_ADDR ||| (location <<< 3)) ++
      (List.range 8).flatMap (fun i => LCD_WriteData (charmap i)))

/-- LCD_WriteChar (src/LCD.c lines 206-218). -/
def LCD_WriteChar (s : LCDState) (location : Nat) : LCD_StatusTypeDef × List Nat :=
  if s.hi2c_lcd = none then (LCD_NOT_INITIALIZED, [])
  else if location > 7 then (LCD_ERROR, [])
  else (LCD_OK, LCD_WriteData location)

/-- LCD_Display (src/LCD.c lines 225-238): the `uint8_t state` argument is
truthy when nonzero. -/
def LCD_Display (s : LCDState) (state : Nat) : LCD_StatusTypeDef × List Nat :=
  if s.hi2c_lcd = none then (LCD_NOT_INITIALIZED, [])
  else if state ≠ 0 then (LCD_OK, LCD_WriteCommand (LCD_DISPLAY_CONTROL ||| LCD_DISPLAY_ON))
  else (LCD_OK, LCD_WriteCommand LCD_DISPLAY_CONTROL)

/-- LCD_Cursor (src/LCD.c lines 245-259). -/
def LCD_Cursor (s : LCDState) (state : Nat) : LCD_StatusTypeDef × List Nat :=
  if s.hi2c_lcd = none then (LCD_NOT_INITIALIZED, [])
  else
    let command := LCD_DISPLAY_CONTROL ||| LCD_DISPLAY_ON
    let command := if state ≠ 0 then command ||| LCD_CURSOR_ON else command
    (LCD_OK, LCD_WriteCommand command)

/-- LCD_Blink (src/LCD.c lines 266-280). -/
def LCD_Blink (s : LCDState) (state : Nat) : LCD_StatusTypeDef × List Nat :=
  if s.hi2c_lcd = none then (LCD_NOT_INITIALIZED, [])
  else
    let command := LCD_DISPLAY_CONTROL ||| LCD_DISPLAY_ON
    let command := if state ≠ 0 then command ||| LCD_BLINK_ON else command
    (LCD_OK, LCD_WriteCommand command)

/-- LCD_SetAddress (src/LCD.c lines 287-291): overwrites the device
address, requires no initialization, always succeeds, transmits nothing. -/
def LCD_SetAddress (s : LCDState) (address : Nat) : LCD_StatusTypeDef × LCDState :=
  (LCD_OK, { s with lcd_addr := address })

/-- LCD_ScrollLeft (src/LCD.c lines 297-305). -/
def LCD_ScrollLeft (s : LCDState) : LCD_StatusTypeDef × List Nat :=
  if s.hi2c_lcd = none then (LCD_NOT_INITIALIZED, [])
  else (LCD_OK, LCD_WriteCommand (LCD_CURSOR_SHIFT ||| LCD_DISPLAY_MOVE ||| LCD_MOVE_LEFT))

/-- LCD_ScrollRight (src/LCD.c lines 311-319). -/
def LCD_ScrollRight (s : LCDState) : LCD_StatusTypeDef × List Nat :=
  if s.hi2c_lcd = none then (LCD_NOT_INITIALIZED, [])
  else (LCD_OK, LCD_WriteCommand (LCD_CURSOR_SHIFT ||| LCD_DISPLAY_MOVE ||| LCD_MOVE_RIGHT))

/-- LCD_Home (src/LCD.c lines 325-334). -/
def LCD_Home (s : LCDState) : LCD_StatusTypeDef × List Nat :=
  if s.hi2c_lcd = none then (LCD_NOT_INITIALIZED, [])
  else (LCD_OK, LCD_WriteCommand LCD_RETURN_HOME)

/-- One call to any operation implemented in src/LCD.c, with its
arguments (LCD_Printf is declared in LCD.h but has no definition in the
repository and is excluded). -/
inductive LCDOp where
  | initOp (hi2c : Option Nat)
  | clear
  | setCursor (row col : Nat)
  | printString (str : Option (List Nat))
  | printInt (num : Int)
  | printFloat (fmt : Nat → List Nat) (decimals : Nat)
  | createChar (location : Nat) (charmap : Nat → Nat)
  | writeChar (location : Nat)
  | display (state : Nat)
  | cursor (state : Nat)
  | blink (state : Nat)
  | setAddress (address : Nat)
  | scrollLeft
  | scrollRight
  | home

/-- Dispatch of one operation call on a driver state, yielding the status,
the transmitted packet bytes and the state after the call. -/
def runOp (s : LCDState) : LCDOp → LCD_StatusTypeDef × List Nat × LCDState
  | .initOp hi2c => LCD_Init s hi2c
  | .clear => ((LCD_Clear s).1, (LCD_Clear s).2, s)
  | .setCursor row col => ((LCD_SetCursor s row col).1, (LCD_SetCursor s row col).2, s)
  | .printString str => ((LCD_PrintString s str).1, (LCD_PrintString s str).2, s)
  | .printInt num => ((LCD_PrintInt s num).1, (LCD_PrintInt s num).2, s)
  | .printFloat fmt d => ((LCD_PrintFloat s fmt d).1, (LCD_PrintFloat s fmt d).2, s)
  | .createChar loc cm => ((LCD_CreateChar s loc cm).1, (LCD_CreateChar s loc cm).2, s)
  | .writeChar loc => ((LCD_WriteChar s loc).1, (LCD_WriteChar s loc).2, s)
  | .display st => ((LCD_Display s st).1, (LCD_Display s st).2, s)
  | .cursor st => ((LCD_Cursor s st).1, (LCD_Cursor s st).2, s)
  | .blink st => ((LCD_Blink s st).1, (LCD_Blink s st).2, s)
  | .setAddress a => ((LCD_SetAddress s a).1, [], (LCD_SetAddress s a).2)
  | .scrollLeft => ((LCD_ScrollLeft s).1, (LCD_ScrollLeft s).2, s)
  | .scrollRight => ((LCD_ScrollRight s).1, (LCD_ScrollRight s).2, s)
  | .home => ((LCD_Home s).1, (LCD_Home s).2, s)

/-- Reconstruction of a byte from the four transmitted packets of one
byte write: the data nibble of the first nibble-transfer (packet index 0)
is the high nibble and the data nibble of the second nibble-transfer
(packet index 2) is the low nibble; `&&& 0xF0` masks off the RS, backlight
and enable control bits, which live in the low nibble of the packet. -/
def reconByte : List Nat → Nat
  | p1 :: _ :: p3 :: _ => (p1 &&& 0xF0) ||| ((p3 &&& 0xF0) >>> 4)
  | _ => 0

/-- A convenient concrete initialized state, used by witnesses: the state
after a successful `LCD_Init` with handle tag 1 from the initial state. -/
def readyState : LCDState := { hi2c_lcd := some 1, lcd_addr := 0x27 <<< 1 }

/-- Both packets of a nibble write carry the backlight bit (bit 3). -/
theorem backlight_writeNibble (d rs : Nat) :
    ∀ p ∈ LCD_WriteNibble d rs, p.testBit 3 = true := by
  intro p hp
  unfold LCD_WriteNibble at hp
  simp only [List.mem_cons, List.not_mem_nil, or_false] at hp
  rcases hp with rfl | rfl
  · simp [LCD_RS, LCD_BACKLIGHT, LCD_EN, Nat.testBit_or,
      (by decide : Nat.testBit 8 3 = true)]
  · simp [LCD_RS, LCD_BACKLIGHT, LCD_EN, Nat.testBit_or, Nat.testBit_and,
      (by decide : Nat.testBit 8 3 = true), (by decide : Nat.testBit 251 3 = true)]

/-- Both nibble transfers of a byte write carry the backlight bit. -/
theorem backlight_writeByte (d rs : Nat) :
    ∀ p ∈ LCD_WriteByte d rs, p.testBit 3 = true := by
  intro p hp
  unfold LCD_WriteByte at hp
  rcases List.mem_append.mp hp with h | h
  · exact backlight_writeNibble _ _ p h
  · exact backlight_writeNibble _ _ p h

/-- Command writes carry the backlight bit in every packet. -/
theorem backlight_writeCommand (cmd : Nat) :
    ∀ p ∈ LCD_WriteCommand cmd, p.testBit 3 = true :=
  backlight_writeByte cmd 0

/-- Data writes carry the backlight bit in every packet. -/
theorem backlight_writeData (d : Nat) :
    ∀ p ∈ LCD_WriteData d, p.testBit 3 = true :=
  backlight_writeByte d 1

/-- The backlight bit propagates through flat-mapped per-element writes. -/
theorem backlight_flatMap {α : Type} (l : List α) (f : α → List Nat)
    (h : ∀ a, ∀ p ∈ f a, p.testBit 3 = true) :
    ∀ p ∈ l.flatMap f, p.testBit 3 = true := by
  intro p hp
  rcases List.mem_flatMap.mp hp with ⟨a, _, hpa⟩
  exact h a p hpa

/-- C1: every public operation other than LCD_Init and LCD_SetAddress
(Clear, SetCursor, PrintString, PrintInt, PrintFloat, CreateChar,
WriteChar, Display, Cursor, Blink, ScrollLeft, ScrollRight, Home), called
while the transport handle is unbound, returns LCD_NOT_INITIALIZED and
issues zero bus-write transactions. -/
theorem claim1_uninitialized_rejects (s : LCDState) (h : s.hi2c_lcd = none) :
    LCD_Clear s = (LCD_NOT_INITIALIZED, []) ∧
    (∀ row col, LCD_SetCursor s row col = (LCD_NOT_INITIALIZED, [])) ∧
    (∀ str, LCD_PrintString s str = (LCD_NOT_INITIALIZED, [])) ∧
    (∀ num, LCD_PrintInt s num = (LCD_NOT_INITIALIZED, [])) ∧
    (∀ fmt decimals, LCD_PrintFloat s fmt decimals = (LCD_NOT_INITIALIZED, [])) ∧
    (∀ location charmap, LCD_CreateChar s location charmap = (LCD_NOT_INITIALIZED, [])) ∧
    (∀ location, LCD_WriteChar s location = (LCD_NOT_INITIALIZED, [])) ∧
    (∀ st, LCD_Display s st = (LCD_NOT_INITIALIZED, [])) ∧
    (∀ st, LCD_Cursor s st = (LCD_NOT_INITIALIZED, [])) ∧
    (∀ st, LCD_Blink s st = (LCD_NOT_INITIALIZED, [])) ∧
    LCD_ScrollLeft s = (LCD_NOT_INITIALIZED, []) ∧
    LCD_ScrollRight s = (LCD_NOT_INITIALIZED, []) ∧
    LCD_Home s = (LCD_NOT_INITIALIZED, []) := by
  refine ⟨?_, ?_, ?_, ?_, ?_, ?_, ?_, ?_, ?_, ?_, ?_, ?_, ?_⟩ <;> intros <;>
    simp [LCD_Clear, LCD_SetCursor, LCD_PrintString, LCD_PrintInt,
      LCD_PrintFloat, LCD_CreateChar, LCD_WriteChar, LCD_Display, LCD_Cursor,
      LCD_Blink, LCD_ScrollLeft, LCD_ScrollRight, LCD_Home, h]

/-- C1 witness: at the program's initial state the handle is unbound and
LCD_Clear returns LCD_NOT_INITIALIZED with an empty transaction list. -/
theorem claim1_witness :
    initialState.hi2c_lcd = none ∧
      LCD_Clear initialState = (LCD_NOT_INITIALIZED, []) :=
  ⟨rfl, (claim1_uninitialized_rejects initialState rfl).1⟩

set_option maxRecDepth 8192 in
/-- C3: for every byte `b` and every RS flag, LCD_WriteByte transmits four
packets (two nibble transfers of two transactions each) from which `b` is
reconstructed by taking the data nibble of the first nibble-transfer as
the high nibble and the data nibble of the second as the low nibble, after
masking off the RS, backlight and enable control bits. -/
theorem claim3_nibble_roundtrip (b rs : Nat) (hb : b < 256) :
    reconByte (LCD_WriteByte b rs) = b ∧ (LCD_WriteByte b rs).length = 4 := by
  refine ⟨?_, rfl⟩
  by_cases hrs : rs = 0
  · subst hrs
    simp only [LCD_WriteByte, LCD_WriteNibble, LCD_RS, LCD_BACKLIGHT, LCD_EN,
      ne_eq, not_true_eq_false, if_false, List.cons_append, List.nil_append,
      reconByte]
    revert hb
    revert b
    decide
  · simp only [LCD_WriteByte, LCD_WriteNibble, LCD_RS, LCD_BACKLIGHT, LCD_EN,
      ne_eq, hrs, not_false_eq_true, if_true, List.cons_append,
      List.nil_append, reconByte]
    revert hb
    revert b
    decide

/-- C3 witness: the round-trip at the data byte 0x9A with RS = 1. -/
theorem claim3_witness :
    (0x9A : Nat) < 256 ∧
      (reconByte (LCD_WriteByte 0x9A 1) = 0x9A ∧ (LCD_WriteByte 0x9A 1).length = 4) :=
  ⟨by decide, claim3_nibble_roundtrip 0x9A 1 (by decide)⟩

/-- C8: LCD_Init with a NULL handle returns LCD_ERROR, leaves the state
(and so the stored handle) unchanged and transmits nothing; a subsequent
LCD_Init on that same state with a valid handle returns LCD_OK and binds
the handle. -/
theorem claim8_init_null_then_valid (s : LCDState) :
    LCD_Init s none = (LCD_ERROR, [], s) ∧
    ∀ h : Nat, (LCD_Init s (some h)).1 = LCD_OK ∧
      ((LCD_Init s (some h)).2.2).hi2c_lcd = some h :=
  ⟨rfl, fun _ => ⟨rfl, rfl⟩⟩

/-- C2: in the initialized state, LCD_SetCursor(row, col) returns LCD_OK
and issues exactly the single command byte 0x80 OR (col' + offset[row'])
with offset = {0x00, 0x40, 0x14, 0x54}, row' = row clamped to at most 3
and col' = col clamped to at most 19; in particular row 5 and col 25 use
effective row 3 and col 19. -/
theorem claim2_setCursor_clamps (s : LCDState) (h : s.hi2c_lcd ≠ none) :
    (∀ row col, LCD_SetCursor s row col =
      (LCD_OK, LCD_WriteCommand (0x80 ||| (min col 19 + row_offsets (min row 3))))) ∧
    LCD_SetCursor s 5 25 =
      (LCD_OK, LCD_WriteCommand (0x80 ||| (19 + row_offsets 3))) := by
  have key : ∀ row col, LCD_SetCursor s row col =
      (LCD_OK, LCD_WriteCommand (0x80 ||| (min col 19 + row_offsets (min row 3)))) := by
    intro row col
    have hr : (if row ≥ 4 then 3 else row) = min row 3 := by split <;> omega
    have hc : (if col ≥ 20 then 19 else col) = min col 19 := by split <;> omega
    unfold LCD_SetCursor
    rw [if_neg h]
    simp only [hr, hc]
    rfl
  refine ⟨key, ?_⟩
  rw [key 5 25]
  norm_num

/-- C2 witness: the clamping at row 5, col 25 in a concrete ready state. -/
theorem claim2_witness :
    readyState.hi2c_lcd ≠ none ∧
      LCD_SetCursor readyState 5 25 =
        (LCD_OK, LCD_WriteCommand (0x80 ||| (19 + row_offsets 3))) :=
  ⟨by decide, (claim2_setCursor_clamps readyState (by decide)).2⟩

/-- C5 counterexample: in a concrete initialized state,
LCD_PrintString "AB" issues 8 bus transactions, not 4 as the claim
states: each of the two data bytes is framed as two nibble transfers of
two transactions each. -/
theorem claim5_counterexample :
    (LCD_PrintString readyState (some [65, 66])).2.length = 8 ∧
      ¬ (LCD_PrintString readyState (some [65, 66])).2.length = 4 := by
  decide

/-- C5 (amended): in the initialized state, LCD_PrintString "AB" issues
exactly 2 data-byte write sequences, amounting to 8 bus transactions via
nibble framing (4 per byte), with the byte for 'A' (65) sent before the
byte for 'B' (66). -/
theorem claim5_printString_AB (s : LCDState) (h : s.hi2c_lcd ≠ none) :
    LCD_PrintString s (some [65, 66]) =
      (LCD_OK, LCD_WriteData 65 ++ LCD_WriteData 66) ∧
    (LCD_PrintString s (some [65, 66])).2.length = 8 := by
  have e : LCD_PrintString s (some [65, 66]) =
      (LCD_OK, LCD_WriteData 65 ++ LCD_WriteData 66) := by
    unfold LCD_PrintString
    rw [if_neg h]
    rfl
  exact ⟨e, by rw [e]; rfl⟩

/-- C5 witness: the amended property at a concrete ready state. -/
theorem claim5_witness :
    readyState.hi2c_lcd ≠ none ∧
      LCD_PrintString readyState (some [65, 66]) =
        (LCD_OK, LCD_WriteData 65 ++ LCD_WriteData 66) :=
  ⟨by decide, (claim5_printString_AB readyState (by decide)).1⟩

/-- C6: in the initialized state, LCD_PrintInt (-42) produces exactly the
same result (status and bus transactions) as LCD_PrintString "-42", the
bytes 45 ('-'), 52 ('4'), 50 ('2'): itoa renders the signed value as
decimal text with a leading minus sign and forwards it to the
string-printing path. -/
theorem claim6_printInt_neg42 (s : LCDState) (h : s.hi2c_lcd ≠ none) :
    LCD_PrintInt s (-42) = LCD_PrintString s (some [45, 52, 50]) := by
  have e : itoa (-42) = [45, 52, 50] := by decide
  unfold LCD_PrintInt
  rw [if_neg h, e]

/-- C6 witness: the equality at a concrete ready state. -/
theorem claim6_witness :
    readyState.hi2c_lcd ≠ none ∧
      LCD_PrintInt readyState (-42) = LCD_PrintString readyState (some [45, 52, 50]) :=
  ⟨by decide, claim6_printInt_neg42 readyState (by decide)⟩

/-- C7: in the initialized state, LCD_Cursor and LCD_Blink each send the
display-control byte with the display-on bit 0x04 always set and the
cursor bit 0x02 (resp. blink bit 0x01) set exactly when the argument is
nonzero, while LCD_Display 0 sends the bare display-control byte 0x08
with no on/cursor/blink bits and LCD_Display of any nonzero value sends
0x08 OR 0x04. -/
theorem claim7_display_control (s : LCDState) (h : s.hi2c_lcd ≠ none) :
    (∀ st, LCD_Cursor s st =
      (LCD_OK, LCD_WriteCommand (0x08 ||| 0x04 ||| (if st ≠ 0 then 0x02 else 0x00)))) ∧
    (∀ st, LCD_Blink s st =
      (LCD_OK, LCD_WriteCommand (0x08 ||| 0x04 ||| (if st ≠ 0 then 0x01 else 0x00)))) ∧
    LCD_Display s 0 = (LCD_OK, LCD_WriteCommand 0x08) ∧
    (∀ st, st ≠ 0 → LCD_Display s st = (LCD_OK, LCD_WriteCommand (0x08 ||| 0x04))) := by
  refine ⟨fun st => ?_, fun st => ?_, ?_, fun st hst => ?_⟩
  · unfold LCD_Cursor
    rw [if_neg h]
    by_cases hs : st = 0 <;>
      simp [hs, LCD_DISPLAY_CONTROL, LCD_DISPLAY_ON, LCD_CURSOR_ON]
  · unfold LCD_Blink
    rw [if_neg h]
    by_cases hs : st = 0 <;>
      simp [hs, LCD_DISPLAY_CONTROL, LCD_DISPLAY_ON, LCD_BLINK_ON]
  · unfold LCD_Display
    rw [if_neg h]
    simp [LCD_DISPLAY_CONTROL]
  · unfold LCD_Display
    rw [if_neg h]
    simp [hst, LCD_DISPLAY_CONTROL, LCD_DISPLAY_ON]

/-- C7 witness: the LCD_Display off/on bytes at a concrete ready state. -/
theorem claim7_witness :
    readyState.hi2c_lcd ≠ none ∧
      LCD_Display readyState 0 = (LCD_OK, LCD_WriteCommand 0x08) :=
  ⟨by decide, (claim7_display_control readyState (by decide)).2.2.1⟩

/-- C4 counterexample: in a concrete initialized state, LCD_CreateChar
with slot 3 issues 36 bus transactions, not 18 as the claim states: the
set-CGRAM-address command and each of the 8 glyph bytes is framed as two
nibble transfers of two transactions each, so 4 transactions per byte. -/
theorem claim4_counterexample :
    (LCD_CreateChar readyState 3 (fun i => i)).2.length = 36 ∧
      ¬ (LCD_CreateChar readyState 3 (fun i => i)).2.length = 18 := by
  decide

/-- C4 (amended): in the initialized state, LCD_CreateChar(8, glyph)
returns the generic LCD_ERROR and issues zero bus transactions, while
LCD_CreateChar(3, glyph) issues one set-CGRAM-address command
(0x40 OR (3 << 3)) followed by the 8 glyph bytes as 8 sequential data
writes, each byte framed as two 2-transaction nibble transfers, for 36
bus transactions total. -/
theorem claim4_createChar (s : LCDState) (charmap : Nat → Nat)
    (h : s.hi2c_lcd ≠ none) :
    LCD_CreateChar s 8 charmap = (LCD_ERROR, []) ∧
    LCD_CreateChar s 3 charmap =
      (LCD_OK, LCD_WriteCommand (LCD_SET_CGRAM_ADDR ||| (3 <<< 3)) ++
        (List.range 8).flatMap (fun i => LCD_WriteData (charmap i))) ∧
    (LCD_CreateChar s 3 charmap).2.length = 36 := by
  refine ⟨?_, ?_, ?_⟩
  · unfold LCD_CreateChar
    rw [if_neg h]
    rfl
  · unfold LCD_CreateChar
    rw [if_neg h]
    rfl
  · unfold LCD_CreateChar
    rw [if_neg h]
    simp [LCD_WriteCommand, LCD_WriteData, LCD_WriteByte, LCD_WriteNibble,
      List.range_succ]

/-- C4 witness: the out-of-range rejection at a concrete ready state. -/
theorem claim4_witness :
    readyState.hi2c_lcd ≠ none ∧
      LCD_CreateChar readyState 8 (fun i => i) = (LCD_ERROR, []) :=
  ⟨by decide, (claim4_createChar readyState (fun i => i) (by decide)).1⟩

/-- C9: every packet byte any operation transmits to the transport, in
any driver state, has the backlight bit (0x08, bit 3) set. -/
theorem claim9_backlight_invariant (s : LCDState) (op : LCDOp) :
    ∀ p ∈ (runOp s op).2.1, p.testBit 3 = true := by
  intro p hp
  cases op with
  | initOp hi2c =>
    cases hi2c with
    | none => simp [runOp, LCD_Init] at hp
    | some h =>
      simp only [runOp, LCD_Init, List.mem_append] at hp
      rcases hp with ((((((((hp | hp) | hp) | hp) | hp) | hp) | hp) | hp) | hp) <;>
        first
          | exact backlight_writeNibble _ _ p hp
          | exact backlight_writeCommand _ p hp
  | clear =>
    simp only [runOp] at hp
    unfold LCD_Clear at hp
    split at hp
    · simp at hp
    · exact backlight_writeCommand _ p hp
  | setCursor row col =>
    simp only [runOp] at hp
    unfold LCD_SetCursor at hp
    split at hp
    · simp at hp
    · exact backlight_writeCommand _ p hp
  | printString str =>
    simp only [runOp] at hp
    unfold LCD_PrintString at hp
    split at hp
    · simp at hp
    · rcases str with _ | cs
      · simp at hp
      · exact backlight_flatMap cs _ (fun c => backlight_writeData c) p hp
  | printInt num =>
    simp only [runOp] at hp
    unfold LCD_PrintInt LCD_PrintString at hp
    split at hp
    · simp at hp
    · split at hp
      · simp at hp
      · exact backlight_flatMap _ _ (fun c => backlight_writeData c) p hp
  | printFloat fmt d =>
    simp only [runOp] at hp
    unfold LCD_PrintFloat LCD_PrintString at hp
    split at hp
    · simp at hp
    · split at hp <;>
        exact backlight_flatMap _ _ (fun c => backlight_writeData c) p hp
  | createChar loc cm =>
    simp only [runOp] at hp
    unfold LCD_CreateChar at hp
    split at hp
    · simp at hp
    · split at hp
      · simp at hp
      · rcases List.mem_append.mp hp with hm | hm
        · exact backlight_writeCommand _ p hm
        · exact backlight_flatMap _ _ (fun i => backlight_writeData (cm i)) p hm
  | writeChar loc =>
    simp only [runOp] at hp
    unfold LCD_WriteChar at hp
    split at hp
    · simp at hp
    · split at hp
      · simp at hp
      · exact backlight_writeData _ p hp
  | display st =>
    simp only [runOp] at hp
    unfold LCD_Display at hp
    split at hp
    · simp at hp
    · split at hp
      · exact backlight_writeCommand _ p hp
      · exact backlight_writeCommand _ p hp
  | cursor st =>
    simp only [runOp] at hp
    unfold LCD_Cursor at hp
    split at hp
    · simp at hp
    · exact backlight_writeCommand _ p hp
  | blink st =>
    simp only [runOp] at hp
    unfold LCD_Blink at hp
    split at hp
    · simp at hp
    · exact backlight_writeCommand _ p hp
  | setAddress a => simp [runOp] at hp
  | scrollLeft =>
    simp only [runOp] at hp
    unfold LCD_ScrollLeft at hp
    split at hp
    · simp at hp
    · exact backlight_writeCommand _ p hp
  | scrollRight =>
    simp only [runOp] at hp
    unfold LCD_ScrollRight at hp
    split at hp
    · simp at hp
    · exact backlight_writeCommand _ p hp
  | home =>
    simp only [runOp] at hp
    unfold LCD_Home at hp
    split at hp
    · simp at hp
    · exact backlight_writeCommand _ p hp

/-- C9 witness: packet 0x0C, the first transaction of LCD_Clear in a
concrete ready state, carries the backlight bit. -/
theorem claim9_witness :
    (0x0C ∈ (runOp readyState .clear).2.1) ∧ Nat.testBit 0x0C 3 = true :=
  ⟨by decide, claim9_backlight_invariant readyState .clear 0x0C (by decide)⟩

/-- C10: although LCD_StatusTypeDef declares LCD_BUSY and LCD_TIMEOUT, no
operation implemented in LCD.c returns them: for every driver state and
every call, the status is LCD_OK, LCD_ERROR or LCD_NOT_INITIALIZED. -/
theorem claim10_status_range (s : LCDState) (op : LCDOp) :
    (runOp s op).1 = LCD_OK ∨ (runOp s op).1 = LCD_ERROR ∨
      (runOp s op).1 = LCD_NOT_INITIALIZED := by
  cases op with
  | initOp hi2c => cases hi2c <;> simp [runOp, LCD_Init]
  | clear =>
    simp only [runOp]
    unfold LCD_Clear
    split <;> simp
  | setCursor row col =>
    simp only [runOp]
    unfold LCD_SetCursor
    split <;> simp
  | printString str =>
    simp only [runOp]
    unfold LCD_PrintString
    split
    · simp
    · rcases str with _ | cs <;> simp
  | printInt num =>
    simp only [runOp]
    unfold LCD_PrintInt LCD_PrintString
    split
    · simp
    · split <;> simp
  | printFloat fmt d =>
    simp only [runOp]
    unfold LCD_PrintFloat LCD_PrintString
    split
    · simp
    · split <;> simp
  | createChar loc cm =>
    simp only [runOp]
    unfold LCD_CreateChar
    split
    · simp
    · split <;> simp
  | writeChar loc =>
    simp only [runOp]
    unfold LCD_WriteChar
    split
    · simp
    · split <;> simp
  | display st =>
    simp only [runOp]
    unfold LCD_Display
    split
    · simp
    · split <;> simp
  | cursor st =>
    simp only [runOp]
    unfold LCD_Cursor
    split <;> simp
  | blink st =>
    simp only [runOp]
    unfold LCD_Blink
    split <;> simp
  | setAddress a => simp [runOp, LCD_SetAddress]
  | scrollLeft =>
    simp only [runOp]
    unfold LCD_ScrollLeft
    split <;> simp
  | scrollRight =>
    simp only [runOp]
    unfold LCD_ScrollRight
    split <;> simp
  | home =>
    simp only [runOp]
    unfold LCD_Home
    split <;> simp

end LCDI2C
